import Mathlib

/-!
Shallow embedding of `ninja/operation.py`: the operation-dispatch and
validation/response pipeline of the django-ninja module.

External collaborators (the web framework's request/response primitives, the
CSRF subsystem, pydantic's schema/validation engine, signature introspection)
are modelled as capabilities, exactly as the specification scopes them:
a parameter model resolves to a name/value mapping or fails with a list of
field errors; a schema converts a payload; the CSRF check returns an optional
failure response.

Python reference semantics that the module relies on (the `request.auth`
attribute assignment, the in-place dictionary rewrite in
`_create_response_model_multiple`) are made explicit: the recorded identity is
threaded through return values, and the dictionary rewrite is additionally
given a store-passing version over an explicit heap of dictionaries.
-/

namespace Ninja

/-- A framework request: HTTP method plus opaque request data `ρ`. -/
structure Request (ρ : Type) where
  method : String
  data : ρ

/-- One validation error item as produced by the validation capability:
`loc` is the location path, `msg` the message, `errType` the error type. -/
structure FieldError where
  loc : List String
  msg : String
  errType : String
deriving DecidableEq, Repr

/-- Python-level failures surfaced by the module: `ConfigError` raised in
`_create_response`, `TypeError` from calling a non-callable, attribute errors
from `None` attribute access, and the generic `Exception` raised by
`AsyncOperation.__init__`. -/
inductive PyErr where
  | configError (msg : String)
  | typeError (msg : String)
  | attributeError (msg : String)
  | exception (msg : String)
deriving DecidableEq, Repr

/-- A type declaration usable as a response annotation, abstracted to its
conversion behaviour (the schema capability's "object mapping" conversion). -/
structure TypeDecl (α : Type) where
  convert : α → α

/-- A Python value in response-declaration position: `None`, a type
declaration, or a `NinjaResponseSchema` wrapper class built by
`_create_response_model` around the declared annotation. -/
inductive PyRespVal (α : Type) where
  | pyNone
  | decl (t : TypeDecl α)
  | wrapper (inner : PyRespVal α)

/-- A non-`HttpResponse` handler return value: either a plain payload or a
2-tuple `(status, payload)`. -/
inductive RetVal (α : Type) where
  | plain (v : α)
  | tuple2 (status : Nat) (payload : α)

/-- The object handed to the `Response` constructor. -/
inductive Body (α : Type) where
  /-- the handler's raw return value (a plain payload or a whole 2-tuple) -/
  | raw (rv : RetVal α)
  /-- `{"detail": "<msg>"}` -/
  | detailMsg (s : String)
  /-- `{"detail": [errors...]}` -/
  | detailErrors (es : List FieldError)
  /-- `HttpResponseNotAllowed(allowed_methods)` content -/
  | methodNotAllowed (allowed : List String)

/-- A framework response: a body and a status code (default 200). -/
structure Response (α : Type) where
  body : Body α
  status : Nat

/-- A handler's return value: a native framework response object, or a value
to be shaped. -/
inductive HandlerResult (α : Type) where
  | http (r : Response α)
  | val (rv : RetVal α)

/-- A value stored in `auth_callbacks`: a callable (request → identity or
`None`), or a sequence object (not callable). -/
inductive AuthValue (ρ Ident : Type) where
  | callable (f : Request ρ → Option Ident)
  | seqVal (vs : List (AuthValue ρ Ident))

/-- The `auth` argument: the `NOT_SET` sentinel, `None`, or a value (a
callable or a sequence). -/
inductive AuthParam (ρ Ident : Type) where
  | notSet
  | pyNone
  | value (v : AuthValue ρ Ident)

/-- A parameter model (external capability): its source tag (`model._in`) and
its `resolve(request, path_params)`, which yields a name/value mapping or
fails with `pydantic.ValidationError`/`InvalidInput` carrying `e.errors()`. -/
structure ParamModel (ρ α : Type) where
  tag : String
  resolve : Request ρ → List (String × α) → Except (List FieldError) (List (String × α))

/-- A view function: its body (taking the request, the recorded
`request.auth` identity and the resolved keyword values), whether
`is_async(view_func)` detects an asynchronous callable, and the parameter
models derived from its signature (`ViewSignature(path, view_func).models`). -/
structure ViewFunc (ρ Ident α : Type) where
  fn : Request ρ → Option Ident → List (String × α) → HandlerResult α
  is_coroutine : Bool
  models : List (ParamModel ρ α)

/-- The enclosing API instance: its default auth, its CSRF policy, and the
external `check_csrf(request, view_func)` capability. -/
structure ApiInstance (ρ Ident α : Type) where
  auth : AuthParam ρ Ident
  csrf : Bool
  check_csrf : Request ρ → ViewFunc ρ Ident α → Option (Response α)

/-- `self.response_model`: `None`, a single wrapper schema object, or a dict
keyed by status code. -/
inductive ResponseModel (α : Type) where
  | pyNone
  | model (m : PyRespVal α)
  | dict (d : List (Nat × PyRespVal α))

/-- The `response` argument to the constructor: a dict from status code to
declaration, or a single (possibly `None`) declaration. -/
inductive RespParam (α : Type) where
  | value (v : PyRespVal α)
  | dict (d : List (Nat × PyRespVal α))

variable {ρ Ident α : Type}

/-- `Operation._create_response_model`: `None` stays `None`; any other
declaration is wrapped in a `NinjaResponseSchema` class whose single
`response` field is annotated with the declaration. -/
def create_response_model (p : PyRespVal α) : PyRespVal α :=
  match p with
  | .pyNone => .pyNone
  | p => .wrapper p

/-- `Operation._create_response_model_multiple`, value level: every value of
the status-keyed dict is replaced by `_create_response_model` of it. -/
def create_response_model_multiple (d : List (Nat × PyRespVal α)) : List (Nat × PyRespVal α) :=
  d.map (fun p => (p.1, create_response_model p.2))

/-- A heap of dictionaries, indexed by address: makes Python's reference
semantics for the caller-supplied `response` dict explicit. -/
def Heap (α : Type) : Type :=
  Nat → List (Nat × PyRespVal α)

/-- `Operation._create_response_model_multiple`, store-passing level: the
dict at `addr` is rewritten in place (`response_param[status] = ...`) and the
same reference `addr` is returned. -/
def create_response_model_multiple_ref (addr : Nat) (h : Heap α) : Nat × Heap α :=
  (addr, fun a => if a = addr then create_response_model_multiple (h a) else h a)

/-- Construction-time response-model setup in `Operation.__init__`:
a dict argument goes through `_create_response_model_multiple`, anything else
through `_create_response_model` (which yields `None` for `None`). -/
def make_response_model (response : RespParam α) : ResponseModel α :=
  match response with
  | .dict d => .dict (create_response_model_multiple d)
  | .value v =>
    match create_response_model v with
    | .pyNone => .pyNone
    | m => .model m

/-- `Operation._set_auth`: `None` and `NOT_SET` leave `auth_callbacks`
unchanged; otherwise `auth_callbacks = isinstance(auth, Sequence) and auth or
[auth]` — a non-empty sequence is stored as is, anything else (a callable, or
an empty sequence, which is falsy) is stored as the one-element list
`[auth]`. -/
def set_auth (auth : AuthParam ρ Ident) (current : List (AuthValue ρ Ident)) :
    List (AuthValue ρ Ident) :=
  match auth with
  | .notSet => current
  | .pyNone => current
  | .value (.callable f) => [.callable f]
  | .value (.seqVal vs) => if vs.isEmpty then [.seqVal vs] else vs

/-- Calling one stored auth value: a callable is applied to the request; a
sequence object is not callable, so the call raises `TypeError`. -/
def call_auth_value (cb : AuthValue ρ Ident) (req : Request ρ) : Except PyErr (Option Ident) :=
  match cb with
  | .callable f => .ok (f req)
  | .seqVal _ => .error (.typeError "object is not callable")

/-- `Operation._run_authentication`: try each callback in order; the first
non-`None` result is recorded as `request.auth` (returned here as the first
component) and iteration stops; if all return `None`, a 401
`{"detail": "Unauthorized"}` response is returned (second component). -/
def run_authentication (cbs : List (AuthValue ρ Ident)) (req : Request ρ) :
    Except PyErr (Option Ident × Option (Response α)) :=
  match cbs with
  | [] => .ok (none, some { body := .detailMsg "Unauthorized", status := 401 })
  | cb :: rest =>
    match call_auth_value cb req with
    | .error e => .error e
    | .ok (some ident) => .ok (some ident, none)
    | .ok none => run_authentication rest req

/-- Python `dict.__setitem__` on an association list. -/
def dict_set (d : List (String × α)) (k : String) (v : α) : List (String × α) :=
  if d.any (fun p => p.1 = k) then
    d.map (fun p => if p.1 = k then (k, v) else p)
  else d ++ [(k, v)]

/-- Python `dict.update`: set every key of `data`, in order. -/
def dict_update (d : List (String × α)) (data : List (String × α)) : List (String × α) :=
  data.foldl (fun acc p => dict_set acc p.1 p.2) d

/-- The loop of `Operation._get_values`, with the accumulating `values` and
`errors` explicit: on success merge the resolved mapping; on validation
failure prefix every error location with the model's source tag, extend the
error list, and continue with the next model. -/
def get_values_aux (req : Request ρ) (path_params : List (String × α)) :
    List (ParamModel ρ α) → List (String × α) → List FieldError →
    List (String × α) × List FieldError
  | [], values, errors => (values, errors)
  | m :: rest, values, errors =>
    match m.resolve req path_params with
    | .ok data => get_values_aux req path_params rest (dict_update values data) errors
    | .error es =>
      get_values_aux req path_params rest values
        (errors ++ es.map (fun e => { e with loc := m.tag :: e.loc }))

/-- `Operation._get_values`. -/
def get_values (models : List (ParamModel ρ α)) (req : Request ρ)
    (path_params : List (String × α)) : List (String × α) × List FieldError :=
  get_values_aux req path_params models [] []

/-- The error contribution of one parameter model: its resolution errors with
the source tag prefixed, or nothing on success. Used to characterise the
aggregate error list of `_get_values`. -/
def model_errors (req : Request ρ) (path_params : List (String × α)) (m : ParamModel ρ α) :
    List FieldError :=
  match m.resolve req path_params with
  | .ok _ => []
  | .error es => es.map (fun e => { e with loc := m.tag :: e.loc })

/-- Lines 90–94 of `_create_response`: `status = 200`, then if the result is
a 2-tuple, take status and payload from it. -/
def status_and_payload (rv : RetVal α) : Nat × α :=
  match rv with
  | .tuple2 n v => (n, v)
  | .plain v => (200, v)

/-- Python dict lookup on the status-keyed response dict. -/
def dict_get (d : List (Nat × PyRespVal α)) (k : Nat) : Option (PyRespVal α) :=
  match d with
  | [] => none
  | p :: rest => if p.1 = k then some p.2 else dict_get rest k

/-- The validation capability's conversion of a value for a field annotated
with `m`: a type declaration applies its conversion; a wrapper class used as
an annotation converts per the wrapped declaration; a `None` annotation only
admits `None`, so converting a payload fails (this case is unreachable from
the module's constructions). -/
def field_convert : PyRespVal α → α → Except PyErr α
  | .decl t, v => .ok (t.convert v)
  | .wrapper i, v => field_convert i v
  | .pyNone, _ => .error (.typeError "value is not None")

/-- `response_model.from_orm(ResponseObject(result)).dict()["response"]`:
only a wrapper schema class has `from_orm`; it converts the payload per its
`response` field annotation. `None` or a raw annotation in schema position
has no `from_orm` attribute. -/
def from_orm_response (m : PyRespVal α) (v : α) : Except PyErr α :=
  match m with
  | .wrapper inner => field_convert inner v
  | .pyNone => .error (.attributeError "NoneType object has no attribute from_orm")
  | .decl _ => .error (.attributeError "type object has no attribute from_orm")

/-- `Operation._create_response`: a native framework response passes through
untouched; with no response model the raw result (tuple included) is wrapped
with the default `Response` constructor; otherwise the 2-tuple is
destructured into status and payload, the status-keyed dict (if any) is
consulted — a missing status raises `ConfigError` — and the payload is shaped
through the selected schema into a response carrying the resolved status. -/
def create_response (rm : ResponseModel α) (result : HandlerResult α) :
    Except PyErr (Response α) :=
  match result with
  | .http r => .ok r
  | .val rv =>
    match rm with
    | .pyNone => .ok { body := .raw rv, status := 200 }
    | .model m =>
      let sp := status_and_payload rv
      match from_orm_response m sp.2 with
      | .error e => .error e
      | .ok shaped => .ok { body := .raw (.plain shaped), status := sp.1 }
    | .dict d =>
      let sp := status_and_payload rv
      match dict_get d sp.1 with
      | none =>
        .error (.configError
          ("Schema for status " ++ toString sp.1 ++ " is not set in response"))
      | some m =>
        match from_orm_response m sp.2 with
        | .error e => .error e
        | .ok shaped => .ok { body := .raw (.plain shaped), status := sp.1 }

/-- The `Operation` object: flag, route data, handler, deferred api binding,
auth normalisation and the response model, as set up by `__init__`. -/
structure Operation (ρ Ident α : Type) where
  is_async : Bool
  path : String
  methods : List String
  view_func : ViewFunc ρ Ident α
  api : Option (ApiInstance ρ Ident α)
  auth_param : AuthParam ρ Ident
  auth_callbacks : List (AuthValue ρ Ident)
  models : List (ParamModel ρ α)
  response_model : ResponseModel α

/-- `Operation.__init__`. -/
def Operation.init (path : String) (methods : List String) (view_func : ViewFunc ρ Ident α)
    (auth : AuthParam ρ Ident) (response : RespParam α) : Operation ρ Ident α :=
  { is_async := false
    path := path
    methods := methods
    view_func := view_func
    api := none
    auth_param := auth
    auth_callbacks := set_auth auth []
    models := view_func.models
    response_model := make_response_model response }

/-- `AsyncOperation.__init__`: on Django older than 3.1 construction raises;
otherwise the operation is built as usual with `is_async = True`. -/
def AsyncOperation.init (django_version : Nat × Nat) (path : String) (methods : List String)
    (view_func : ViewFunc ρ Ident α) (auth : AuthParam ρ Ident) (response : RespParam α) :
    Except PyErr (Operation ρ Ident α) :=
  if django_version.1 < 3 || (django_version.1 == 3 && django_version.2 < 1) then
    .error (.exception "Async operations are supported only with Django 3.1+")
  else
    .ok { Operation.init path methods view_func auth response with is_async := true }

/-- `auth_param == NOT_SET` test of `set_api_instance`. -/
def AuthParam.isNotSet : AuthParam ρ Ident → Bool
  | .notSet => true
  | _ => false

/-- `Operation.set_api_instance`: bind the api; if this operation's auth was
left at the sentinel and the api declares auth, adopt the api's auth. -/
def Operation.set_api_instance (op : Operation ρ Ident α) (api : ApiInstance ρ Ident α) :
    Operation ρ Ident α :=
  let op := { op with api := some api }
  if op.auth_param.isNotSet && !api.auth.isNotSet then
    { op with auth_callbacks := set_auth api.auth op.auth_callbacks }
  else op

/-- The CSRF part of `Operation._run_checks`: `self.api.csrf` (an attribute
error if no api was bound), then the external `check_csrf` capability. -/
def csrf_step (op : Operation ρ Ident α) (req : Request ρ) (a : Option Ident) :
    Except PyErr (Option Ident × Option (Response α)) :=
  match op.api with
  | none => .error (.attributeError "NoneType object has no attribute csrf")
  | some api =>
    if api.csrf then
      match api.check_csrf req op.view_func with
      | some err => .ok (a, some err)
      | none => .ok (a, none)
    else .ok (a, none)

/-- `Operation._run_checks`: auth first (skipped when `auth_callbacks` is
empty/falsy), short-circuiting on an auth error response, then CSRF. The
first component is the identity recorded on `request.auth`. -/
def run_checks (op : Operation ρ Ident α) (req : Request ρ) :
    Except PyErr (Option Ident × Option (Response α)) :=
  if op.auth_callbacks.isEmpty then csrf_step op req none
  else
    match run_authentication op.auth_callbacks req with
    | .error e => .error e
    | .ok (a, some err) => .ok (a, some err)
    | .ok (a, none) => csrf_step op req a

/-- `Operation.run`: checks, then parameter resolution (a non-empty error
list short-circuits with a 422 `{"detail": errors}` response), then handler
invocation and response shaping. The recorded `request.auth` identity is
returned alongside the response. -/
def Operation.run (op : Operation ρ Ident α) (req : Request ρ) (kw : List (String × α)) :
    Except PyErr (Response α × Option Ident) :=
  match run_checks op req with
  | .error e => .error e
  | .ok (a, some err) => .ok (err, a)
  | .ok (a, none) =>
    let ve := get_values op.models req kw
    if ve.2.isEmpty then
      match create_response op.response_model (op.view_func.fn req a ve.1) with
      | .error e => .error e
      | .ok resp => .ok (resp, a)
    else .ok ({ body := .detailErrors ve.2, status := 422 }, a)

/-- The `PathView` object: owned operations in registration order, and the
derived async flag. -/
structure PathView (ρ Ident α : Type) where
  operations : List (Operation ρ Ident α)
  is_async : Bool

/-- `PathView.__init__`. -/
def PathView.init : PathView ρ Ident α :=
  { operations := [], is_async := false }

/-- `PathView.add`: an async handler marks the PathView async (before the
`AsyncOperation` constructor runs, so the mark persists even if construction
raises) and builds an `AsyncOperation`; otherwise a plain `Operation`; the
new operation is appended and returned. -/
def PathView.add (pv : PathView ρ Ident α) (django_version : Nat × Nat) (path : String)
    (methods : List String) (view_func : ViewFunc ρ Ident α) (auth : AuthParam ρ Ident)
    (response : RespParam α) : PathView ρ Ident α × Except PyErr (Operation ρ Ident α) :=
  if view_func.is_coroutine then
    let pv := { pv with is_async := true }
    match AsyncOperation.init django_version path methods view_func auth response with
    | .error e => (pv, .error e)
    | .ok op => ({ pv with operations := pv.operations ++ [op] }, .ok op)
  else
    let op := Operation.init path methods view_func auth response
    ({ pv with operations := pv.operations ++ [op] }, .ok op)

/-- Python `set.update`, membership-faithfully on a duplicate-free list. -/
def set_update (s : List String) (ms : List String) : List String :=
  ms.foldl (fun acc m => if m ∈ acc then acc else acc ++ [m]) s

/-- The loop of `PathView._find_operation`, with the accumulated
`allowed_methods` set explicit: each operation's methods are added to the
set before the membership test; the first operation whose methods contain the
request's method is returned; exhaustion yields the 405 response carrying the
accumulated set. -/
def find_operation_aux (req : Request ρ) (allowed : List String) :
    List (Operation ρ Ident α) → Option (Operation ρ Ident α) × Option (Response α)
  | [] => (none, some { body := .methodNotAllowed allowed, status := 405 })
  | op :: rest =>
    let allowed' := set_update allowed op.methods
    if req.method ∈ op.methods then (some op, none)
    else find_operation_aux req allowed' rest

/-- `PathView._find_operation`. -/
def PathView.find_operation (pv : PathView ρ Ident α) (req : Request ρ) :
    Option (Operation ρ Ident α) × Option (Response α) :=
  find_operation_aux req [] pv.operations

/-! Concrete instances used to exercise the definitions. -/

/-- A concrete GET request with trivial data. -/
def demoReq : Request Unit :=
  { method := "GET", data := () }

/-- A concrete response type declaration over `Nat` payloads. -/
def demoDecl : TypeDecl Nat :=
  { convert := fun v => v + 1 }

/-- A concrete heap whose every address holds a status-keyed response dict. -/
def demoHeap : Heap Nat :=
  fun _ => [(404, PyRespVal.decl demoDecl)]

/-- A path-parameter model that always fails with one field error. -/
def demoModelFailPath : ParamModel Unit Nat :=
  { tag := "path"
    resolve := fun _ _ =>
      .error [{ loc := ["id"], msg := "field required", errType := "value_error.missing" }] }

/-- A body model that always fails with one field error. -/
def demoModelFailBody : ParamModel Unit Nat :=
  { tag := "body"
    resolve := fun _ _ =>
      .error [{ loc := ["name"], msg := "field required", errType := "value_error.missing" }] }

/-- A synchronous handler whose two parameter models both fail. -/
def demoViewFails : ViewFunc Unit Nat Nat :=
  { fn := fun _ _ _ => .val (.plain 5)
    is_coroutine := false
    models := [demoModelFailPath, demoModelFailBody] }

/-- A synchronous handler with no parameter models that returns `(404, 5)`. -/
def demoViewOk : ViewFunc Unit Nat Nat :=
  { fn := fun _ _ _ => .val (.tuple2 404 5)
    is_coroutine := false
    models := [] }

/-- An asynchronous handler with no parameter models. -/
def demoViewAsync : ViewFunc Unit Nat Nat :=
  { fn := fun _ _ _ => .val (.plain 5)
    is_coroutine := true
    models := [] }

/-- An API instance with CSRF disabled and no default auth. -/
def demoApi : ApiInstance Unit Nat Nat :=
  { auth := .notSet, csrf := false, check_csrf := fun _ _ => none }

/-- An operation whose two parameter models both fail, bound to `demoApi`. -/
def demoOpC2 : Operation Unit Nat Nat :=
  (Operation.init "/x" ["GET"] demoViewFails .pyNone (.value .pyNone)).set_api_instance demoApi

/-- An operation with one auth callback that always returns `None`. -/
def demoOpC4 : Operation Unit Nat Nat :=
  Operation.init "/x" ["GET"] demoViewOk
    (.value (.callable (fun _ => (none : Option Nat)))) (.value .pyNone)

/-- An operation whose status-keyed response dict only declares status 200
while its handler returns `(404, 5)`, bound to `demoApi`. -/
def demoOpC6 : Operation Unit Nat Nat :=
  (Operation.init "/x" ["GET"] demoViewOk .pyNone
    (.dict [(200, .decl demoDecl)])).set_api_instance demoApi

/-- An operation registered for GET. -/
def demoOpGet : Operation Unit Nat Nat :=
  Operation.init "/x" ["GET"] demoViewOk .pyNone (.value .pyNone)

/-- A second operation also claiming GET. -/
def demoOpGet2 : Operation Unit Nat Nat :=
  Operation.init "/x" ["GET", "HEAD"] demoViewOk .pyNone (.value .pyNone)

/-- An operation registered for POST only. -/
def demoOpPost : Operation Unit Nat Nat :=
  Operation.init "/x" ["POST"] demoViewOk .pyNone (.value .pyNone)

/-- An operation registered for PUT and POST. -/
def demoOpPut : Operation Unit Nat Nat :=
  Operation.init "/x" ["PUT", "POST"] demoViewOk .pyNone (.value .pyNone)

/-- A path view on which two operations both claim GET. -/
def demoPVSame : PathView Unit Nat Nat :=
  { operations := [demoOpGet, demoOpGet2], is_async := false }

/-- A path view none of whose operations accepts GET. -/
def demoPVMiss : PathView Unit Nat Nat :=
  { operations := [demoOpPost, demoOpPut], is_async := false }

/-- A path view already marked asynchronous. -/
def demoPVAsync : PathView Unit Nat Nat :=
  { operations := [], is_async := true }

/-! Theorems. -/

/-- Claim C1, counterexample: with no declared response schema, a handler
returning the 2-tuple `(201, 7)` is served with the default status 200 and
the whole tuple as the body — the tuple's status 201 is not used, because
`_create_response` returns `Response(result)` before the tuple is
destructured. -/
theorem c1_counterexample :
    create_response ResponseModel.pyNone (HandlerResult.val (RetVal.tuple2 201 (7 : Nat)))
        = Except.ok { body := Body.raw (RetVal.tuple2 201 7), status := 200 } ∧
      (200 : Nat) ≠ 201 :=
  ⟨rfl, by decide⟩

/-- Claim C1 (amended): when a response schema is declared, a handler's
2-tuple return uses the tuple's first element as the response status and
shapes only the second element; a plain conforming value is served as 200
with its shaped form; when no response schema is declared the whole raw
return value — a 2-tuple included — is wrapped by the default response
constructor with default status 200, so the tuple's status is not used. -/
theorem c1_tuple_status_with_schema (α : Type) (t : TypeDecl α) (n : Nat) (v : α) :
    create_response (make_response_model (RespParam.value (PyRespVal.decl t)))
        (HandlerResult.val (RetVal.tuple2 n v))
        = Except.ok { body := Body.raw (RetVal.plain (t.convert v)), status := n } ∧
      create_response (make_response_model (RespParam.value (PyRespVal.decl t)))
        (HandlerResult.val (RetVal.plain v))
        = Except.ok { body := Body.raw (RetVal.plain (t.convert v)), status := 200 } ∧
      create_response ResponseModel.pyNone (HandlerResult.val (RetVal.tuple2 n v))
        = Except.ok { body := Body.raw (RetVal.tuple2 n v), status := 200 } :=
  ⟨rfl, rfl, rfl⟩

/-- Claim C7: a handler returning a native framework response object has it
passed through the shaping step unchanged, whatever the declared response
model. -/
theorem c7_http_passthrough (α : Type) (rm : ResponseModel α) (r : Response α) :
    create_response rm (HandlerResult.http r) = Except.ok r :=
  rfl

/-- Claim C9: the status-keyed schema construction returns the caller's own
dict reference with every value rewritten in place through
`_create_response_model`, leaving every other heap cell untouched — it does
not build a fresh mapping and leave the caller's argument unchanged. -/
theorem c9_inplace_dict_rewrite (α : Type) (addr : Nat) (h : Heap α) :
    (create_response_model_multiple_ref addr h).1 = addr ∧
      (create_response_model_multiple_ref addr h).2 addr
        = (h addr).map (fun p => (p.1, create_response_model p.2)) ∧
      ∀ a, a ≠ addr → (create_response_model_multiple_ref addr h).2 a = h a := by
  refine ⟨rfl, ?_, ?_⟩
  · simp [create_response_model_multiple_ref, create_response_model_multiple]
  · intro a ha
    simp [create_response_model_multiple_ref, ha]

/-- Claim C9 witness: at address 0 of the concrete heap, the stored dict is
rewritten to hold the wrapper schema, while address 1 is untouched. -/
theorem c9_witness :
    (create_response_model_multiple_ref 0 demoHeap).2 0
        = [(404, PyRespVal.wrapper (PyRespVal.decl demoDecl))] ∧
      (create_response_model_multiple_ref 0 demoHeap).2 1 = demoHeap 1 :=
  ⟨((c9_inplace_dict_rewrite Nat 0 demoHeap).2.1).trans rfl,
    (c9_inplace_dict_rewrite Nat 0 demoHeap).2.2 1 (by decide)⟩

/-- The error component of the `_get_values` loop is the running error list
extended by every remaining model's tagged errors, in declaration order. -/
theorem get_values_aux_errors (req : Request ρ) (pp : List (String × α))
    (models : List (ParamModel ρ α)) (values : List (String × α)) (errors : List FieldError) :
    (get_values_aux req pp models values errors).2
      = errors ++ models.flatMap (model_errors req pp) := by
  induction models generalizing values errors with
  | nil => simp [get_values_aux]
  | cons m rest ih =>
    cases h : m.resolve req pp with
    | ok data => simp [get_values_aux, h, ih, model_errors]
    | error es => simp [get_values_aux, h, ih, model_errors]

/-- Claim C2: parameter resolution never aborts at the first failing model —
the aggregate error list of `_get_values` is the in-order concatenation of
every model's errors, each prefixed with its own source tag; and whenever the
security checks pass and that list is non-empty, `run` answers 422 with a
`detail` body carrying the full list. -/
theorem c2_error_aggregation (ρ Ident α : Type) :
    (∀ (models : List (ParamModel ρ α)) (req : Request ρ) (pp : List (String × α)),
        (get_values models req pp).2 = models.flatMap (model_errors req pp)) ∧
      (∀ (op : Operation ρ Ident α) (req : Request ρ) (kw : List (String × α))
          (a : Option Ident),
        run_checks op req = Except.ok (a, none) →
        (get_values op.models req kw).2 ≠ [] →
        op.run req kw
          = Except.ok
              ({ body := Body.detailErrors ((get_values op.models req kw).2),
                 status := 422 }, a)) := by
  constructor
  · intro models req pp
    simpa using get_values_aux_errors req pp models [] []
  · intro op req kw a hchecks herr
    have hempty : ((get_values op.models req kw).2).isEmpty = false := by
      cases h : (get_values op.models req kw).2 with
      | nil => exact absurd h herr
      | cons x l => rfl
    simp [Operation.run, hchecks, hempty]

/-- Claim C2 witness: two failing models contribute their errors in order,
each prefixed with its own source tag, and the concrete operation answers
422 with the full two-element list. -/
theorem c2_witness :
    (get_values [demoModelFailPath, demoModelFailBody] demoReq []).2
        = [{ loc := ["path", "id"], msg := "field required", errType := "value_error.missing" },
           { loc := ["body", "name"], msg := "field required", errType := "value_error.missing" }] ∧
      demoOpC2.run demoReq []
        = Except.ok
            ({ body := Body.detailErrors
                 [{ loc := ["path", "id"], msg := "field required",
                    errType := "value_error.missing" },
                  { loc := ["body", "name"], msg := "field required",
                    errType := "value_error.missing" }],
               status := 422 }, none) :=
  ⟨((c2_error_aggregation Unit Nat Nat).1 [demoModelFailPath, demoModelFailBody]
      demoReq []).trans rfl,
    ((c2_error_aggregation Unit Nat Nat).2 demoOpC2 demoReq [] none rfl
      (by decide)).trans rfl⟩

/-- Claim C3: the first auth callback returning a non-absent identity
determines the recorded identity, and nothing after it is invoked: the run
of `_run_authentication` is independent of the trailing callbacks, which may
even be non-callable without an error surfacing. -/
theorem c3_first_callback_wins (ρ Ident α : Type) (pre post : List (AuthValue ρ Ident))
    (f : Request ρ → Option Ident) (i : Ident) (req : Request ρ)
    (hpre : ∀ cb ∈ pre, call_auth_value cb req = Except.ok (none : Option Ident))
    (hf : f req = some i) :
    @run_authentication ρ Ident α (pre ++ AuthValue.callable f :: post) req
      = Except.ok (some i, none) := by
  revert hpre
  induction pre with
  | nil =>
    intro hpre
    simp [run_authentication, call_auth_value, hf]
  | cons cb rest ih =>
    intro hpre
    have hcb := hpre cb (by simp)
    simp only [List.cons_append, run_authentication, hcb]
    exact ih (fun c hc => hpre c (by simp [hc]))

/-- Claim C3 witness: with callbacks absent, `f` (returning identity 1) and a
non-callable trailing value, authentication records 1 and no error occurs. -/
theorem c3_witness :
    @run_authentication Unit Nat Nat
        ([AuthValue.callable (fun _ => none)] ++
          AuthValue.callable (fun _ => some 1) :: [AuthValue.seqVal []]) demoReq
      = Except.ok (some 1, none) :=
  c3_first_callback_wins Unit Nat Nat [AuthValue.callable (fun _ => none)]
    [AuthValue.seqVal []] (fun _ => some 1) 1 demoReq
    (by
      intro cb hcb
      rw [List.mem_singleton] at hcb
      subst hcb
      rfl)
    rfl

/-- When every configured auth value, when called, yields an absent identity,
`_run_authentication` records nothing and returns the 401 response. -/
theorem run_authentication_all_absent (cbs : List (AuthValue ρ Ident)) (req : Request ρ)
    (habs : ∀ cb ∈ cbs, call_auth_value cb req = Except.ok (none : Option Ident)) :
    @run_authentication ρ Ident α cbs req
      = Except.ok (none, some { body := Body.detailMsg "Unauthorized", status := 401 }) := by
  induction cbs with
  | nil => rfl
  | cons cb rest ih =>
    have hcb := habs cb (by simp)
    simp only [run_authentication, hcb]
    exact ih (fun c hc => habs c (by simp [hc]))

/-- Claim C4: with a non-empty configured auth callback sequence all of whose
callbacks return absent, `run` short-circuits with exactly the 401
`Unauthorized` detail body: the result does not depend on the operation's
parameter models, handler, or CSRF configuration, so neither parameter
resolution nor the handler is ever exercised. -/
theorem c4_all_absent_unauthorized (ρ Ident α : Type) (op : Operation ρ Ident α)
    (req : Request ρ) (kw : List (String × α))
    (hne : op.auth_callbacks ≠ [])
    (habs : ∀ cb ∈ op.auth_callbacks,
      call_auth_value cb req = Except.ok (none : Option Ident)) :
    op.run req kw
      = Except.ok ({ body := Body.detailMsg "Unauthorized", status := 401 }, none) := by
  have hauth : @run_authentication ρ Ident α op.auth_callbacks req
      = Except.ok (none, some { body := Body.detailMsg "Unauthorized", status := 401 }) :=
    run_authentication_all_absent op.auth_callbacks req habs
  have hempty : op.auth_callbacks.isEmpty = false := by
    cases h : op.auth_callbacks with
    | nil => exact absurd h hne
    | cons c l => rfl
  simp [Operation.run, run_checks, hempty, hauth]

/-- Claim C4 witness: the concrete operation whose single callback always
returns absent answers 401 `Unauthorized` — even though it has no bound api
instance, confirming the CSRF stage is never reached. -/
theorem c4_witness :
    demoOpC4.run demoReq []
      = Except.ok ({ body := Body.detailMsg "Unauthorized", status := 401 }, none) :=
  c4_all_absent_unauthorized Unit Nat Nat demoOpC4 demoReq []
    (by
      intro h
      simp [demoOpC4, Operation.init, set_auth] at h)
    (by
      intro cb hcb
      have hc : cb = AuthValue.callable (fun _ => (none : Option Nat)) := by
        simpa [demoOpC4, Operation.init, set_auth] using hcb
      subst hc
      rfl)

/-- Membership in the result of the `set.update` model is membership in
either argument. -/
theorem set_update_mem (x : String) (ms : List String) (s : List String) :
    x ∈ set_update s ms ↔ x ∈ s ∨ x ∈ ms := by
  induction ms generalizing s with
  | nil => simp [set_update]
  | cons m rest ih =>
    have hstep : set_update s (m :: rest)
        = set_update (if m ∈ s then s else s ++ [m]) rest := rfl
    rw [hstep, ih]
    by_cases hm : m ∈ s
    · simp only [hm, if_true, List.mem_cons]
      constructor
      · rintro (h | h)
        · exact Or.inl h
        · exact Or.inr (Or.inr h)
      · rintro (h | h | h)
        · exact Or.inl h
        · exact Or.inl (h ▸ hm)
        · exact Or.inr h
    · simp only [hm, if_false, List.mem_append, List.mem_singleton, List.mem_cons]
      tauto

/-- If no operation before `op` accepts the request's method and `op` does,
the dispatch loop returns `op`, whatever the accumulated set. -/
theorem find_operation_aux_found (req : Request ρ) (ops₁ : List (Operation ρ Ident α))
    (op : Operation ρ Ident α) (ops₂ : List (Operation ρ Ident α)) (allowed : List String)
    (hmiss : ∀ o ∈ ops₁, req.method ∉ o.methods) (hit : req.method ∈ op.methods) :
    find_operation_aux req allowed (ops₁ ++ op :: ops₂) = (some op, none) := by
  induction ops₁ generalizing allowed with
  | nil => simp [find_operation_aux, hit]
  | cons o rest ih =>
    have ho := hmiss o (by simp)
    simp only [List.cons_append, find_operation_aux]
    rw [if_neg ho]
    exact ih _ (fun o' h' => hmiss o' (by simp [h']))

/-- If no operation accepts the request's method, the dispatch loop runs to
the end and answers 405 with the accumulated set extended by every
operation's methods. -/
theorem find_operation_aux_none (req : Request ρ) (ops : List (Operation ρ Ident α))
    (allowed : List String) (hmiss : ∀ o ∈ ops, req.method ∉ o.methods) :
    ∃ out,
      find_operation_aux req allowed ops
          = (none, some { body := Body.methodNotAllowed out, status := 405 }) ∧
        ∀ m, m ∈ out ↔ m ∈ allowed ∨ ∃ o ∈ ops, m ∈ o.methods := by
  induction ops generalizing allowed with
  | nil => exact ⟨allowed, rfl, by simp⟩
  | cons o rest ih =>
    have ho := hmiss o (by simp)
    obtain ⟨out, heq, hmem⟩ :=
      ih (set_update allowed o.methods) (fun o' h' => hmiss o' (by simp [h']))
    refine ⟨out, ?_, ?_⟩
    · simp only [find_operation_aux]
      rw [if_neg ho]
      exact heq
    · intro m
      rw [hmem m, set_update_mem]
      constructor
      · rintro ((h | h) | ⟨o', ho', hm⟩)
        · exact Or.inl h
        · exact Or.inr ⟨o, by simp, h⟩
        · exact Or.inr ⟨o', by simp [ho'], hm⟩
      · rintro (h | ⟨o', ho', hm⟩)
        · exact Or.inl (Or.inl h)
        · rcases List.mem_cons.mp ho' with h' | h'
          · exact Or.inl (Or.inr (h' ▸ hm))
          · exact Or.inr ⟨o', h', hm⟩

/-- Claim C5: dispatch returns the first operation, in registration order,
whose method list contains the request's method — even when a later
operation claims the same method — and when none matches it answers 405
whose allowed-methods set is exactly the union of the method lists of all
operations on the path. -/
theorem c5_method_dispatch (ρ Ident α : Type) :
    (∀ (pv : PathView ρ Ident α) (ops₁ ops₂ : List (Operation ρ Ident α))
        (op : Operation ρ Ident α) (req : Request ρ),
        pv.operations = ops₁ ++ op :: ops₂ →
        (∀ o ∈ ops₁, req.method ∉ o.methods) →
        req.method ∈ op.methods →
        pv.find_operation req = (some op, none)) ∧
      (∀ (pv : PathView ρ Ident α) (req : Request ρ),
        (∀ o ∈ pv.operations, req.method ∉ o.methods) →
        ∃ allowed,
          pv.find_operation req
              = (none, some { body := Body.methodNotAllowed allowed, status := 405 }) ∧
            ∀ m, m ∈ allowed ↔ ∃ o ∈ pv.operations, m ∈ o.methods) := by
  constructor
  · intro pv ops₁ ops₂ op req hops hmiss hit
    unfold PathView.find_operation
    rw [hops]
    exact find_operation_aux_found req ops₁ op ops₂ [] hmiss hit
  · intro pv req hmiss
    obtain ⟨out, heq, hmem⟩ := find_operation_aux_none req pv.operations [] hmiss
    exact ⟨out, heq, fun m => by simpa using hmem m⟩

/-- Claim C5 witness: on a path where two operations both claim GET, the
first one wins; on a path accepting only POST and PUT, a GET request gets a
405 whose allowed set matches the union of both operations' methods. -/
theorem c5_witness :
    demoPVSame.find_operation demoReq = (some demoOpGet, none) ∧
      ∃ allowed,
        demoPVMiss.find_operation demoReq
            = (none, some { body := Body.methodNotAllowed allowed, status := 405 }) ∧
          ∀ m, m ∈ allowed ↔ ∃ o ∈ demoPVMiss.operations, m ∈ o.methods :=
  ⟨(c5_method_dispatch Unit Nat Nat).1 demoPVSame [] [demoOpGet2] demoOpGet demoReq rfl
      (by intro o h; simp at h) (by decide),
    (c5_method_dispatch Unit Nat Nat).2 demoPVMiss demoReq
      (by
        intro o h
        simp only [demoPVMiss, List.mem_cons, List.mem_singleton] at h
        rcases h with h | h | h
        · subst h; decide
        · subst h; decide
        · simp at h)⟩

/-- A missing key in the status-keyed response dict makes `_create_response`
raise `ConfigError` naming the resolved status. -/
theorem create_response_dict_missing (d : List (Nat × PyRespVal α)) (rv : RetVal α)
    (hnone : dict_get d (status_and_payload rv).1 = none) :
    create_response (ResponseModel.dict d) (HandlerResult.val rv)
      = Except.error (PyErr.configError
          ("Schema for status " ++ toString (status_and_payload rv).1
            ++ " is not set in response")) := by
  simp [create_response, hnone]

/-- Claim C6: under a status-keyed response dict, a resolved status (200 by
default, or the tuple's first element) that is not a key of the dict makes
shaping fail with `ConfigError`, and `run` propagates that error to its
caller instead of serving a response. -/
theorem c6_missing_status_config_error (ρ Ident α : Type) :
    (∀ (d : List (Nat × PyRespVal α)) (rv : RetVal α),
        dict_get d (status_and_payload rv).1 = none →
        create_response (ResponseModel.dict d) (HandlerResult.val rv)
          = Except.error (PyErr.configError
              ("Schema for status " ++ toString (status_and_payload rv).1
                ++ " is not set in response"))) ∧
      (∀ (op : Operation ρ Ident α) (req : Request ρ) (kw : List (String × α))
          (a : Option Ident) (d : List (Nat × PyRespVal α)) (rv : RetVal α),
        run_checks op req = Except.ok (a, none) →
        (get_values op.models req kw).2 = [] →
        op.response_model = ResponseModel.dict d →
        op.view_func.fn req a (get_values op.models req kw).1 = HandlerResult.val rv →
        dict_get d (status_and_payload rv).1 = none →
        op.run req kw
          = Except.error (PyErr.configError
              ("Schema for status " ++ toString (status_and_payload rv).1
                ++ " is not set in response"))) := by
  constructor
  · intro d rv hnone
    exact create_response_dict_missing d rv hnone
  · intro op req kw a d rv hchecks hnoerr hrm hres hnone
    simp [Operation.run, hchecks, hnoerr, hres, hrm,
      create_response_dict_missing d rv hnone]

/-- Claim C6 witness: a dict declaring only status 200 while the handler
returns `(404, 5)` fails shaping with the `ConfigError` for status 404, both
at the shaping step and through `run`. -/
theorem c6_witness :
    create_response (ResponseModel.dict [(200, PyRespVal.wrapper (PyRespVal.decl demoDecl))])
        (HandlerResult.val (RetVal.tuple2 404 (5 : Nat)))
        = Except.error (PyErr.configError "Schema for status 404 is not set in response") ∧
      demoOpC6.run demoReq []
        = Except.error (PyErr.configError "Schema for status 404 is not set in response") :=
  ⟨((c6_missing_status_config_error Unit Nat Nat).1
      [(200, PyRespVal.wrapper (PyRespVal.decl demoDecl))] (RetVal.tuple2 404 5) rfl).trans
      rfl,
    ((c6_missing_status_config_error Unit Nat Nat).2 demoOpC6 demoReq [] none
      [(200, PyRespVal.wrapper (PyRespVal.decl demoDecl))] (RetVal.tuple2 404 5)
      rfl rfl rfl rfl rfl).trans rfl⟩

/-- Claim C8: an operation's async flag is set at construction — false by
`Operation.__init__`, true by a successful `AsyncOperation.__init__` — and
no module operation changes it afterwards; a path view starts non-async,
any add of an async handler marks it async, and once async it stays async
under every further add. -/
theorem c8_is_async_flags (ρ Ident α : Type) :
    (∀ (path : String) (methods : List String) (vf : ViewFunc ρ Ident α)
        (auth : AuthParam ρ Ident) (response : RespParam α),
        (Operation.init path methods vf auth response).is_async = false) ∧
      (∀ (dv : Nat × Nat) (path : String) (methods : List String) (vf : ViewFunc ρ Ident α)
          (auth : AuthParam ρ Ident) (response : RespParam α) (op : Operation ρ Ident α),
        AsyncOperation.init dv path methods vf auth response = Except.ok op →
        op.is_async = true) ∧
      (∀ (op : Operation ρ Ident α) (api : ApiInstance ρ Ident α),
        (op.set_api_instance api).is_async = op.is_async) ∧
      ((PathView.init : PathView ρ Ident α).is_async = false) ∧
      (∀ (pv : PathView ρ Ident α) (dv : Nat × Nat) (path : String) (methods : List String)
          (vf : ViewFunc ρ Ident α) (auth : AuthParam ρ Ident) (response : RespParam α),
        pv.is_async = true →
        ((pv.add dv path methods vf auth response).1).is_async = true) ∧
      (∀ (pv : PathView ρ Ident α) (dv : Nat × Nat) (path : String) (methods : List String)
          (vf : ViewFunc ρ Ident α) (auth : AuthParam ρ Ident) (response : RespParam α),
        vf.is_coroutine = true →
        ((pv.add dv path methods vf auth response).1).is_async = true) := by
  refine ⟨?_, ?_, ?_, rfl, ?_, ?_⟩
  · intro path methods vf auth response
    rfl
  · intro dv path methods vf auth response op h
    unfold AsyncOperation.init at h
    split at h
    · simp at h
    · cases h
      rfl
  · intro op api
    simp only [Operation.set_api_instance]
    split
    · rfl
    · rfl
  · intro pv dv path methods vf auth response hpv
    cases hvc : vf.is_coroutine with
    | false => simp [PathView.add, hvc, hpv]
    | true =>
      simp only [PathView.add, hvc, if_true]
      split
      · rfl
      · rfl
  · intro pv dv path methods vf auth response hvc
    simp only [PathView.add, hvc, if_true]
    split
    · rfl
    · rfl

/-- Claim C8 witness: an already-async path view stays async after adding a
synchronous handler; a fresh path view becomes async when an async handler
is added; a concrete `AsyncOperation` construction yields the flag true. -/
theorem c8_witness :
    ((demoPVAsync.add (3, 1) "/x" ["GET"] demoViewOk AuthParam.pyNone
        (RespParam.value PyRespVal.pyNone)).1).is_async = true ∧
      (((PathView.init : PathView Unit Nat Nat).add (3, 1) "/x" ["GET"] demoViewAsync
          AuthParam.pyNone (RespParam.value PyRespVal.pyNone)).1).is_async = true ∧
      ({ Operation.init "/x" ["GET"] demoViewAsync AuthParam.pyNone
          (RespParam.value PyRespVal.pyNone) with is_async := true } :
          Operation Unit Nat Nat).is_async = true :=
  ⟨(c8_is_async_flags Unit Nat Nat).2.2.2.2.1 demoPVAsync (3, 1) "/x" ["GET"] demoViewOk
      AuthParam.pyNone (RespParam.value PyRespVal.pyNone) rfl,
    (c8_is_async_flags Unit Nat Nat).2.2.2.2.2 PathView.init (3, 1) "/x" ["GET"]
      demoViewAsync AuthParam.pyNone (RespParam.value PyRespVal.pyNone) rfl,
    (c8_is_async_flags Unit Nat Nat).2.1 (3, 1) "/x" ["GET"] demoViewAsync
      AuthParam.pyNone (RespParam.value PyRespVal.pyNone)
      ({ Operation.init "/x" ["GET"] demoViewAsync AuthParam.pyNone
          (RespParam.value PyRespVal.pyNone) with is_async := true })
      rfl⟩

/-- Claim C10: normalising an empty auth sequence stores the one-element
callback list holding that empty sequence itself, so auth counts as
configured on the resulting operation, and running it on any request raises
`TypeError` when the stored "callback" is called. -/
theorem c10_empty_sequence_auth (ρ Ident α : Type) (path : String) (methods : List String)
    (vf : ViewFunc ρ Ident α) (response : RespParam α) (req : Request ρ)
    (kw : List (String × α)) (current : List (AuthValue ρ Ident)) :
    set_auth (AuthParam.value (AuthValue.seqVal ([] : List (AuthValue ρ Ident)))) current
        = [AuthValue.seqVal []] ∧
      (Operation.init path methods vf
          (AuthParam.value (AuthValue.seqVal [])) response).auth_callbacks
        = [AuthValue.seqVal []] ∧
      (Operation.init path methods vf (AuthParam.value (AuthValue.seqVal [])) response).run
          req kw
        = Except.error (PyErr.typeError "object is not callable") :=
  ⟨rfl, rfl, rfl⟩

end Ninja
